import Mathlib

/-!
Verification of the structured-error and runtime-error-tracking core of the
`starter-rust-webuiangular-rspack` repository.

The development shallowly embeds:
* `src/src/core/infrastructure/error_handler.rs` — `ErrorSeverity`,
  `ErrorEntry`, `ErrorTracker` (record / get_recent / get_summary / clear),
  the panic-hook entry construction from `init_error_handling`;
* `src/src/core/error.rs` — `ErrorCode`, its `Display` impl, `ErrorValue`
  and `ErrorValue::to_response`;
* `src/core/backend/src/error/kinds.rs` and `handler.rs` — the four-family
  `AppError` taxonomy, `code()`, the predicates, the `Display` impls, and
  `ErrorHandler::get_log_level`.

Machine integers (`u64`) are modelled as `Nat` reduced modulo `2 ^ 64` at
each arithmetic step.  Side-effecting inputs (the wall clock in
`ErrorEntry::new`, the panic payload in the panic hook) become explicit
parameters.  Mutex-guarded critical sections of `ErrorTracker` are also
given a fine-grained interleaving semantics (`TrackerAction` /
`execAction`) in which each atomic action corresponds to exactly one lock
acquisition in the Rust source; this is used for the concurrency claims.
-/

/-- Modulus of Rust's `u64` arithmetic. -/
def U64_MOD : Nat := 2 ^ 64

/-- `MAX_ERROR_HISTORY` constant, error_handler.rs line 11. -/
def MAX_ERROR_HISTORY : Nat := 100

/-- `ErrorSeverity` enum, error_handler.rs lines 14-20. -/
inductive ErrorSeverity where
  | Info
  | Warning
  | Error
  | Critical
deriving DecidableEq, Repr

/-- `ErrorCode` enum, error.rs lines 17-51. -/
inductive ErrorCode where
  | DbConnectionFailed
  | DbQueryFailed
  | DbConstraintViolation
  | DbNotFound
  | DbAlreadyExists
  | ConfigNotFound
  | ConfigInvalid
  | ConfigMissingField
  | SerializationFailed
  | DeserializationFailed
  | InvalidFormat
  | ValidationFailed
  | MissingRequiredField
  | InvalidFieldValue
  | ResourceNotFound
  | UserNotFound
  | EntityNotFound
  | LockPoisoned
  | InternalError
  | Unknown
deriving DecidableEq, Repr

/-- The explicit discriminant values of the `ErrorCode` enum declaration,
error.rs lines 17-51 (numeric codes, used internally only). -/
def ErrorCode.discr : ErrorCode → Nat
  | .DbConnectionFailed => 1000
  | .DbQueryFailed => 1001
  | .DbConstraintViolation => 1002
  | .DbNotFound => 1003
  | .DbAlreadyExists => 1004
  | .ConfigNotFound => 2000
  | .ConfigInvalid => 2001
  | .ConfigMissingField => 2002
  | .SerializationFailed => 3000
  | .DeserializationFailed => 3001
  | .InvalidFormat => 3002
  | .ValidationFailed => 4000
  | .MissingRequiredField => 4001
  | .InvalidFieldValue => 4002
  | .ResourceNotFound => 5000
  | .UserNotFound => 5001
  | .EntityNotFound => 5002
  | .LockPoisoned => 6000
  | .InternalError => 6999
  | .Unknown => 9999

/-- `impl Display for ErrorCode`, error.rs lines 53-78. -/
def ErrorCode.display : ErrorCode → String
  | .DbConnectionFailed => "DB_CONNECTION_FAILED"
  | .DbQueryFailed => "DB_QUERY_FAILED"
  | .DbConstraintViolation => "DB_CONSTRAINT_VIOLATION"
  | .DbNotFound => "DB_NOT_FOUND"
  | .DbAlreadyExists => "DB_ALREADY_EXISTS"
  | .ConfigNotFound => "CONFIG_NOT_FOUND"
  | .ConfigInvalid => "CONFIG_INVALID"
  | .ConfigMissingField => "CONFIG_MISSING_FIELD"
  | .SerializationFailed => "SERIALIZATION_FAILED"
  | .DeserializationFailed => "DESERIALIZATION_FAILED"
  | .InvalidFormat => "INVALID_FORMAT"
  | .ValidationFailed => "VALIDATION_FAILED"
  | .MissingRequiredField => "MISSING_REQUIRED_FIELD"
  | .InvalidFieldValue => "INVALID_FIELD_VALUE"
  | .ResourceNotFound => "RESOURCE_NOT_FOUND"
  | .UserNotFound => "USER_NOT_FOUND"
  | .EntityNotFound => "ENTITY_NOT_FOUND"
  | .LockPoisoned => "LOCK_POISONED"
  | .InternalError => "INTERNAL_ERROR"
  | .Unknown => "UNKNOWN"

/-- `ErrorEntry` struct, error_handler.rs lines 23-34.  `u64` fields become
`Nat`, `&'static str` becomes `String`. -/
structure ErrorEntry where
  id : Nat
  timestamp : Nat
  severity : ErrorSeverity
  source : String
  code : ErrorCode
  message : String
  details : Option String
  stack_trace : Option String
  context : List (String × String)
deriving DecidableEq, Repr

/-- `ErrorEntry::new`, error_handler.rs lines 37-57.  The wall-clock read
(`SystemTime::now`) is passed in as the explicit `timestamp` argument;
`id` is always initialised to `0`. -/
def ErrorEntry.new (severity : ErrorSeverity) (source : String) (code : ErrorCode)
    (message : String) (timestamp : Nat) : ErrorEntry :=
  { id := 0
    timestamp := timestamp
    severity := severity
    source := source
    code := code
    message := message
    details := none
    stack_trace := none
    context := [] }

/-- `ErrorEntry::with_details`, error_handler.rs lines 59-62. -/
def ErrorEntry.with_details (e : ErrorEntry) (details : String) : ErrorEntry :=
  { e with details := some details }

/-- `ErrorEntry::with_stack_trace`, error_handler.rs lines 64-67. -/
def ErrorEntry.with_stack_trace (e : ErrorEntry) (stack : String) : ErrorEntry :=
  { e with stack_trace := some stack }

/-- The mutable state of `ErrorTracker`, error_handler.rs lines 135-141:
a deque of entries (head = oldest, FIFO front) and four `u64` cells, each
guarded by its own `Mutex` in the source. -/
structure ErrorTracker where
  errors : List ErrorEntry
  sequence : Nat
  error_count : Nat
  warning_count : Nat
  critical_count : Nat
deriving DecidableEq, Repr

/-- `ErrorTracker::new`, error_handler.rs lines 144-152. -/
def ErrorTracker.new : ErrorTracker :=
  { errors := [], sequence := 0, error_count := 0, warning_count := 0, critical_count := 0 }

/-- The `while errors.len() > MAX_ERROR_HISTORY { errors.pop_front(); }`
loop of `ErrorTracker::record`, error_handler.rs lines 187-189, acting on
the deque (head = front). -/
def popWhileOverCapacity : List ErrorEntry → List ErrorEntry
  | [] => []
  | e :: rest =>
      if rest.length + 1 > MAX_ERROR_HISTORY then popWhileOverCapacity rest else e :: rest

/-- `ErrorTracker::record`, error_handler.rs lines 155-190 (sequential
semantics: the whole call as one step).  Assigns the next sequence value
as the entry's `id`, bumps the counter matching the severity (`Info`
bumps none), and pushes to the back of the bounded deque, evicting from
the front while over capacity.  The terminal log emission touches no
tracker state and is omitted. -/
def ErrorTracker.record (t : ErrorTracker) (entry : ErrorEntry) : ErrorTracker :=
  let seq := (t.sequence + 1) % U64_MOD
  let entry' := { entry with id := seq }
  let t1 : ErrorTracker := { t with sequence := seq }
  let t2 : ErrorTracker :=
    match entry'.severity with
    | .Warning => { t1 with warning_count := (t1.warning_count + 1) % U64_MOD }
    | .Error => { t1 with error_count := (t1.error_count + 1) % U64_MOD }
    | .Critical => { t1 with critical_count := (t1.critical_count + 1) % U64_MOD }
    | .Info => t1
  { t2 with errors := popWhileOverCapacity (t2.errors ++ [entry']) }

/-- `ErrorTracker::get_recent`, error_handler.rs lines 193-196:
`errors.iter().rev().take(limit)`. -/
def ErrorTracker.get_recent (t : ErrorTracker) (limit : Nat) : List ErrorEntry :=
  t.errors.reverse.take limit

/-- `ErrorSummary` struct, error_handler.rs lines 219-224. -/
structure ErrorSummary where
  total : Nat
  errors : Nat
  warnings : Nat
  critical : Nat
deriving DecidableEq, Repr

/-- `ErrorTracker::get_summary`, error_handler.rs lines 199-206. -/
def ErrorTracker.get_summary (t : ErrorTracker) : ErrorSummary :=
  { total := t.errors.length
    errors := t.error_count
    warnings := t.warning_count
    critical := t.critical_count }

/-- `ErrorTracker::clear`, error_handler.rs lines 209-215 (sequential
semantics).  The sequence counter is not reset. -/
def ErrorTracker.clear (t : ErrorTracker) : ErrorTracker :=
  { t with errors := [], error_count := 0, warning_count := 0, critical_count := 0 }

/-- A whole sequence of `record` calls, oldest first. -/
def recordAll (t : ErrorTracker) (es : List ErrorEntry) : ErrorTracker :=
  es.foldl ErrorTracker.record t

/-- The unbounded log of entries as `record` stamps them: the entry list
with ids assigned from sequence value `s` onwards.  This is a
specification-side device used to state which entries survive in the
bounded queue. -/
def recordedLog (s : Nat) : List ErrorEntry → List ErrorEntry
  | [] => []
  | e :: es => { e with id := (s + 1) % U64_MOD } :: recordedLog ((s + 1) % U64_MOD) es

/-- Dropping the front excess over capacity. -/
def dropExcess (l : List ErrorEntry) : List ErrorEntry :=
  l.drop (l.length - MAX_ERROR_HISTORY)

theorem popWhileOverCapacity_eq_dropExcess (l : List ErrorEntry) :
    popWhileOverCapacity l = dropExcess l := by
  induction l with
  | nil => rfl
  | cons e rest ih =>
      unfold popWhileOverCapacity
      by_cases h : rest.length + 1 > MAX_ERROR_HISTORY
      · rw [if_pos h, ih]
        unfold dropExcess
        have h1 : (e :: rest).length - MAX_ERROR_HISTORY
            = (rest.length - MAX_ERROR_HISTORY) + 1 := by
          simp only [List.length_cons]; omega
        rw [h1, List.drop_succ_cons]
      · rw [if_neg h]
        unfold dropExcess
        have h1 : (e :: rest).length - MAX_ERROR_HISTORY = 0 := by
          simp only [List.length_cons]; omega
        rw [h1, List.drop_zero]

theorem dropExcess_length_le (l : List ErrorEntry) :
    (dropExcess l).length ≤ MAX_ERROR_HISTORY := by
  unfold dropExcess
  rw [List.length_drop]
  omega

theorem record_errors_eq (t : ErrorTracker) (e : ErrorEntry) :
    (t.record e).errors
      = dropExcess (t.errors ++ [{ e with id := (t.sequence + 1) % U64_MOD }]) := by
  unfold ErrorTracker.record
  cases e.severity <;> simp [popWhileOverCapacity_eq_dropExcess]

theorem record_sequence_eq (t : ErrorTracker) (e : ErrorEntry) :
    (t.record e).sequence = (t.sequence + 1) % U64_MOD := by
  unfold ErrorTracker.record
  cases e.severity <;> rfl

theorem dropExcess_append_left (A B : List ErrorEntry) :
    dropExcess (dropExcess A ++ B) = dropExcess (A ++ B) := by
  unfold dropExcess
  have hle : A.length - MAX_ERROR_HISTORY ≤ A.length := Nat.sub_le _ _
  rw [← List.drop_append_of_le_length hle, List.drop_drop]
  exact congrArg (fun n => List.drop n (A ++ B))
    (by simp only [List.length_drop, List.length_append]; omega)

theorem recordAll_errors_eq (es : List ErrorEntry) :
    ∀ t : ErrorTracker, t.errors.length ≤ MAX_ERROR_HISTORY →
      (recordAll t es).errors = dropExcess (t.errors ++ recordedLog t.sequence es) := by
  induction es with
  | nil =>
      intro t h
      unfold recordAll recordedLog dropExcess
      simp only [List.foldl_nil, List.append_nil]
      rw [Nat.sub_eq_zero_of_le h, List.drop_zero]
  | cons e es ih =>
      intro t h
      have hrec : (recordAll t (e :: es)) = recordAll (t.record e) es := by
        unfold recordAll
        simp [List.foldl_cons]
      rw [hrec]
      have hlen : (t.record e).errors.length ≤ MAX_ERROR_HISTORY := by
        rw [record_errors_eq]; exact dropExcess_length_le _
      rw [ih _ hlen, record_errors_eq, record_sequence_eq, dropExcess_append_left]
      simp only [recordedLog, List.append_assoc, List.singleton_append]

theorem recordedLog_length (s : Nat) (es : List ErrorEntry) :
    (recordedLog s es).length = es.length := by
  induction es generalizing s with
  | nil => rfl
  | cons e es ih => simp [recordedLog, ih]

theorem recordAll_new_errors (es : List ErrorEntry) :
    (recordAll ErrorTracker.new es).errors
      = (recordedLog 0 es).drop (es.length - MAX_ERROR_HISTORY) := by
  have h := recordAll_errors_eq es ErrorTracker.new (by simp [ErrorTracker.new])
  have hnew : (ErrorTracker.new).errors ++ recordedLog (ErrorTracker.new).sequence es
      = recordedLog 0 es := by
    simp [ErrorTracker.new]
  rw [hnew] at h
  unfold dropExcess at h
  rw [recordedLog_length] at h
  exact h

theorem recordAll_new_errors_length (es : List ErrorEntry) :
    (recordAll ErrorTracker.new es).errors.length = min es.length MAX_ERROR_HISTORY := by
  rw [recordAll_new_errors, List.length_drop, recordedLog_length]
  omega

/-- C1: for every sequence of `record` calls starting from a fresh tracker,
the history queue's length is `min n 100` (hence at most the capacity
constant `MAX_ERROR_HISTORY = 100` after each call), and the queue is
exactly the last-100 suffix, in insertion order, of the full log of
recorded entries (FIFO eviction of the oldest). -/
theorem bounded_history_invariant (es : List ErrorEntry) :
    (recordAll ErrorTracker.new es).errors.length = min es.length MAX_ERROR_HISTORY ∧
    (recordAll ErrorTracker.new es).errors
      = (recordedLog 0 es).drop (es.length - MAX_ERROR_HISTORY) :=
  ⟨recordAll_new_errors_length es, recordAll_new_errors es⟩

/-- Number of entries of a given severity in a list. -/
def countSeverity (sev : ErrorSeverity) (es : List ErrorEntry) : Nat :=
  es.countP (fun e => decide (e.severity = sev))

theorem record_error_count (t : ErrorTracker) (e : ErrorEntry) :
    (t.record e).error_count
      = if e.severity = ErrorSeverity.Error then (t.error_count + 1) % U64_MOD
        else t.error_count := by
  unfold ErrorTracker.record
  cases e.severity <;> simp

theorem record_warning_count (t : ErrorTracker) (e : ErrorEntry) :
    (t.record e).warning_count
      = if e.severity = ErrorSeverity.Warning then (t.warning_count + 1) % U64_MOD
        else t.warning_count := by
  unfold ErrorTracker.record
  cases e.severity <;> simp

theorem record_critical_count (t : ErrorTracker) (e : ErrorEntry) :
    (t.record e).critical_count
      = if e.severity = ErrorSeverity.Critical then (t.critical_count + 1) % U64_MOD
        else t.critical_count := by
  unfold ErrorTracker.record
  cases e.severity <;> simp

theorem recordAll_counts (es : List ErrorEntry) :
    ∀ t : ErrorTracker,
      t.error_count < U64_MOD → t.warning_count < U64_MOD → t.critical_count < U64_MOD →
      (recordAll t es).error_count
          = (t.error_count + countSeverity ErrorSeverity.Error es) % U64_MOD ∧
      (recordAll t es).warning_count
          = (t.warning_count + countSeverity ErrorSeverity.Warning es) % U64_MOD ∧
      (recordAll t es).critical_count
          = (t.critical_count + countSeverity ErrorSeverity.Critical es) % U64_MOD := by
  induction es with
  | nil =>
      intro t he hw hc
      unfold recordAll countSeverity
      simp only [List.foldl_nil, List.countP_nil, Nat.add_zero]
      exact ⟨(Nat.mod_eq_of_lt he).symm, (Nat.mod_eq_of_lt hw).symm, (Nat.mod_eq_of_lt hc).symm⟩
  | cons e es ih =>
      intro t he hw hc
      have hrec : (recordAll t (e :: es)) = recordAll (t.record e) es := by
        unfold recordAll
        simp [List.foldl_cons]
      rw [hrec]
      have hmod : ∀ n : Nat, (n + 1) % U64_MOD < U64_MOD :=
        fun n => Nat.mod_lt _ (by unfold U64_MOD; positivity)
      have he' : (t.record e).error_count < U64_MOD := by
        rw [record_error_count]; split <;> [exact hmod _; exact he]
      have hw' : (t.record e).warning_count < U64_MOD := by
        rw [record_warning_count]; split <;> [exact hmod _; exact hw]
      have hc' : (t.record e).critical_count < U64_MOD := by
        rw [record_critical_count]; split <;> [exact hmod _; exact hc]
      obtain ⟨ihe, ihw, ihc⟩ := ih (t.record e) he' hw' hc'
      rw [ihe, ihw, ihc, record_error_count, record_warning_count, record_critical_count]
      unfold countSeverity
      simp only [List.countP_cons]
      cases e.severity <;>
        simp [Nat.add_comm, Nat.add_assoc, Nat.add_left_comm]

theorem recordAll_errors_length (es : List ErrorEntry) (t : ErrorTracker)
    (h : t.errors.length ≤ MAX_ERROR_HISTORY) :
    (recordAll t es).errors.length
      = min (t.errors.length + es.length) MAX_ERROR_HISTORY := by
  rw [recordAll_errors_eq es t h]
  unfold dropExcess
  rw [List.length_drop, List.length_append, recordedLog_length]
  omega

/-- C3: from any tracker that was just cleared, after any sequence of fewer
than `2 ^ 64` `record` calls the summary's `total` is the current bounded
queue length `min n 100`, while `errors` / `warnings` / `critical` are the
lifetime numbers of entries recorded at severity Error / Warning /
Critical since the clear (not bounded by capacity); and a `record` of an
Info-severity entry changes none of the three counters. -/
theorem summary_counts_lifetime (t0 : ErrorTracker) (es : List ErrorEntry)
    (hlen : es.length < U64_MOD) :
    (recordAll t0.clear es).get_summary
      = { total := min es.length MAX_ERROR_HISTORY
          errors := countSeverity ErrorSeverity.Error es
          warnings := countSeverity ErrorSeverity.Warning es
          critical := countSeverity ErrorSeverity.Critical es } ∧
    (∀ (t : ErrorTracker) (e : ErrorEntry), e.severity = ErrorSeverity.Info →
      (t.record e).error_count = t.error_count ∧
      (t.record e).warning_count = t.warning_count ∧
      (t.record e).critical_count = t.critical_count) := by
  constructor
  · have hpos : (0 : Nat) < U64_MOD := by unfold U64_MOD; positivity
    obtain ⟨he, hw, hc⟩ := recordAll_counts es t0.clear
      (by simp [ErrorTracker.clear]; exact hpos) (by simp [ErrorTracker.clear]; exact hpos)
      (by simp [ErrorTracker.clear]; exact hpos)
    have hcnt : ∀ sev, countSeverity sev es % U64_MOD = countSeverity sev es := by
      intro sev
      exact Nat.mod_eq_of_lt (Nat.lt_of_le_of_lt (List.countP_le_length _) hlen)
    have hql : (recordAll t0.clear es).errors.length = min es.length MAX_ERROR_HISTORY := by
      have := recordAll_errors_length es t0.clear (by simp [ErrorTracker.clear])
      simpa [ErrorTracker.clear] using this
    unfold ErrorTracker.get_summary
    rw [he, hw, hc, hql]
    simp [ErrorTracker.clear, hcnt]
  · intro t e hinfo
    rw [record_error_count, record_warning_count, record_critical_count, hinfo]
    simp

/-- Witness for `summary_counts_lifetime` at a concrete three-entry input. -/
theorem summary_counts_lifetime_witness :
    ([ErrorEntry.new ErrorSeverity.Warning "a" ErrorCode.ValidationFailed "w" 0,
      ErrorEntry.new ErrorSeverity.Info "b" ErrorCode.Unknown "i" 1,
      ErrorEntry.new ErrorSeverity.Error "c" ErrorCode.DbQueryFailed "e" 2] :
        List ErrorEntry).length < U64_MOD ∧
    (recordAll (ErrorTracker.new.clear)
        [ErrorEntry.new ErrorSeverity.Warning "a" ErrorCode.ValidationFailed "w" 0,
         ErrorEntry.new ErrorSeverity.Info "b" ErrorCode.Unknown "i" 1,
         ErrorEntry.new ErrorSeverity.Error "c" ErrorCode.DbQueryFailed "e" 2]).get_summary
      = { total := 3, errors := 1, warnings := 1, critical := 0 } :=
  ⟨by decide, by
    have h := (summary_counts_lifetime ErrorTracker.new
      [ErrorEntry.new ErrorSeverity.Warning "a" ErrorCode.ValidationFailed "w" 0,
       ErrorEntry.new ErrorSeverity.Info "b" ErrorCode.Unknown "i" 1,
       ErrorEntry.new ErrorSeverity.Error "c" ErrorCode.DbQueryFailed "e" 2] (by decide)).1
    rw [h]
    decide⟩

/-- C4: for every sequence of `record` calls from a fresh tracker and every
`limit`, `get_recent limit` returns the most recently recorded entries
first (the reverse of the retained log), and exactly
`min limit (min n 100)` of them, i.e. `min limit (current history length)`
entries in reverse chronological order. -/
theorem get_recent_reverse_chronological (es : List ErrorEntry) (limit : Nat) :
    (recordAll ErrorTracker.new es).get_recent limit
      = (recordedLog 0 es).reverse.take (min limit MAX_ERROR_HISTORY) ∧
    ((recordAll ErrorTracker.new es).get_recent limit).length
      = min limit ((recordAll ErrorTracker.new es).errors.length) := by
  have herr := recordAll_new_errors es
  unfold ErrorTracker.get_recent
  rw [herr, List.reverse_drop, recordedLog_length, List.take_take]
  constructor
  · rw [List.take_eq_take]
    simp only [List.length_reverse, recordedLog_length]
    omega
  · simp only [List.length_take, List.length_reverse, List.length_drop, recordedLog_length]
    omega

/-- The `ErrorEntry` synthesized by the panic hook installed by
`init_error_handling`, error_handler.rs lines 279-286: severity
`Critical`, fixed source tag `"PANIC"`, code `InternalError`, the panic
message, `details = "Location: <loc>"`, and the captured stack trace.
The panic payload, location and clock reading are explicit parameters. -/
def panic_hook_entry (message location stack : String) (timestamp : Nat) : ErrorEntry :=
  ((ErrorEntry.new ErrorSeverity.Critical "PANIC" ErrorCode.InternalError message
      timestamp).with_details ("Location: " ++ location)).with_stack_trace stack

theorem popWhileOverCapacity_eq_self (l : List ErrorEntry)
    (h : l.length ≤ MAX_ERROR_HISTORY) : popWhileOverCapacity l = l := by
  rw [popWhileOverCapacity_eq_dropExcess]
  unfold dropExcess
  rw [Nat.sub_eq_zero_of_le h, List.drop_zero]

/-- C7: recording the crash entry synthesized by the panic hook (which the
hook passes directly to `ErrorTracker::record`) increments the summary's
`critical` by exactly 1, increments `total` by exactly 1 while the history
is below capacity, and afterwards `get_recent 1` returns exactly the crash
entry (with its assigned id), whose severity is `Critical`. -/
theorem panic_hook_records_critical (t : ErrorTracker)
    (message location stack : String) (timestamp : Nat)
    (hcap : t.errors.length < MAX_ERROR_HISTORY)
    (hcnt : t.critical_count + 1 < U64_MOD) :
    (t.record (panic_hook_entry message location stack timestamp)).get_summary.critical
      = t.get_summary.critical + 1 ∧
    (t.record (panic_hook_entry message location stack timestamp)).get_summary.total
      = t.get_summary.total + 1 ∧
    (t.record (panic_hook_entry message location stack timestamp)).get_recent 1
      = [{ panic_hook_entry message location stack timestamp
            with id := (t.sequence + 1) % U64_MOD }] ∧
    (panic_hook_entry message location stack timestamp).severity = ErrorSeverity.Critical := by
  have hsev : (panic_hook_entry message location stack timestamp).severity
      = ErrorSeverity.Critical := rfl
  have herr := record_errors_eq t (panic_hook_entry message location stack timestamp)
  have hfull : dropExcess (t.errors ++
      [{ panic_hook_entry message location stack timestamp
          with id := (t.sequence + 1) % U64_MOD }])
      = t.errors ++ [{ panic_hook_entry message location stack timestamp
          with id := (t.sequence + 1) % U64_MOD }] := by
    rw [← popWhileOverCapacity_eq_dropExcess]
    apply popWhileOverCapacity_eq_self
    rw [List.length_append]
    simp only [List.length_cons, List.length_nil]
    omega
  refine ⟨?_, ?_, ?_, hsev⟩
  · unfold ErrorTracker.get_summary
    rw [record_critical_count, if_pos hsev]
    exact Nat.mod_eq_of_lt hcnt
  · unfold ErrorTracker.get_summary
    simp only
    rw [herr, hfull, List.length_append]
    simp
  · unfold ErrorTracker.get_recent
    rw [herr, hfull, List.reverse_append]
    simp

/-- Concrete warning entry used by witnesses. -/
def warnEntryW : ErrorEntry :=
  ErrorEntry.new ErrorSeverity.Warning "w" ErrorCode.Unknown "m" 0

/-- Tracker state after recording five Warning entries (spec scenario 4). -/
def trackerAfterFiveWarnings : ErrorTracker :=
  recordAll ErrorTracker.new (List.replicate 5 warnEntryW)

/-- Witness for `panic_hook_records_critical`: five Warning entries are
recorded, then the crash entry; `critical` goes from 0 to 1, `total` from
5 to 6, and `get_recent 1` returns the Critical crash entry. -/
theorem panic_hook_records_critical_witness :
    (trackerAfterFiveWarnings.errors.length < MAX_ERROR_HISTORY ∧
      trackerAfterFiveWarnings.critical_count + 1 < U64_MOD) ∧
    ((trackerAfterFiveWarnings.record
        (panic_hook_entry "boom" "main.rs:1:1" "bt" 7)).get_summary.critical
        = trackerAfterFiveWarnings.get_summary.critical + 1 ∧
      (trackerAfterFiveWarnings.record
        (panic_hook_entry "boom" "main.rs:1:1" "bt" 7)).get_summary.total
        = trackerAfterFiveWarnings.get_summary.total + 1 ∧
      (trackerAfterFiveWarnings.record
        (panic_hook_entry "boom" "main.rs:1:1" "bt" 7)).get_recent 1
        = [{ panic_hook_entry "boom" "main.rs:1:1" "bt" 7
              with id := (trackerAfterFiveWarnings.sequence + 1) % U64_MOD }] ∧
      (panic_hook_entry "boom" "main.rs:1:1" "bt" 7).severity = ErrorSeverity.Critical) :=
  ⟨⟨by decide, by decide⟩,
    panic_hook_records_critical trackerAfterFiveWarnings "boom" "main.rs:1:1" "bt" 7
      (by decide) (by decide)⟩

/-- C10: the id a recorded entry is stamped with is independent of the id
the entry carried on the way in — `record` unconditionally overwrites it
with the next sequence value, so two inputs differing only in `id`
produce identical tracker states; and `ErrorEntry::new` always initialises
`id` to `0`. -/
theorem record_id_independent (t : ErrorTracker) (e : ErrorEntry) (a b : Nat)
    (severity : ErrorSeverity) (source : String) (code : ErrorCode) (message : String)
    (timestamp : Nat) :
    t.record { e with id := a } = t.record { e with id := b } ∧
    (ErrorEntry.new severity source code message timestamp).id = 0 := by
  cases e
  exact ⟨rfl, rfl⟩

namespace Backend

/-- `DomainError` enum, kinds.rs lines 23-46. -/
inductive DomainError where
  | NotFound (entity id : String)
  | Validation (field message : String) (value : Option String)
  | BusinessRule (rule message : String)
  | Conflict (resource message : String)
deriving DecidableEq, Repr

/-- `InfrastructureError` enum, kinds.rs lines 49-74. -/
inductive InfrastructureError where
  | Database (operation message : String) (source : Option String)
  | FileSystem (path operation message : String)
  | Network (url message : String) (status : Option Nat)
  | Serialization (format message : String)
deriving DecidableEq, Repr

/-- `ApplicationError` enum, kinds.rs lines 77-98. -/
inductive ApplicationError where
  | InvalidState (state expected : String)
  | Timeout (operation : String) (timeout_ms : Nat)
  | Canceled (operation reason : String)
  | Internal (message : String)
deriving DecidableEq, Repr

/-- `PluginError` enum, kinds.rs lines 101-122. -/
inductive PluginError where
  | NotFound (plugin_id : String)
  | LoadFailed (plugin_id message : String)
  | InitFailed (plugin_id message : String)
  | DependencyMissing (plugin_id dependency : String)
deriving DecidableEq, Repr

/-- `AppError` enum (four-family taxonomy), kinds.rs lines 10-20. -/
inductive AppError where
  | Domain (e : DomainError)
  | Infrastructure (e : InfrastructureError)
  | Application (e : ApplicationError)
  | Plugin (e : PluginError)
deriving DecidableEq, Repr

/-- `impl Display for DomainError`, kinds.rs lines 143-164. -/
def DomainError.display : DomainError → String
  | .NotFound entity id => entity ++ " not found: " ++ id
  | .Validation field message value =>
      "Validation failed for \x27" ++ field ++ "\x27: " ++ message ++
        (match value with
          | some v => " (value: " ++ v ++ ")"
          | none => "")
  | .BusinessRule rule message =>
      "Business rule \x27" ++ rule ++ "\x27 violated: " ++ message
  | .Conflict resource message =>
      "Conflict on \x27" ++ resource ++ "\x27: " ++ message

/-- `impl Display for InfrastructureError`, kinds.rs lines 166-191. -/
def InfrastructureError.display : InfrastructureError → String
  | .Database operation message source =>
      "Database " ++ operation ++ " failed: " ++ message ++
        (match source with
          | some s => " (" ++ s ++ ")"
          | none => "")
  | .FileSystem path operation message =>
      "File system " ++ operation ++ " on \x27" ++ path ++ "\x27 failed: " ++ message
  | .Network url message status =>
      "Network request to \x27" ++ url ++ "\x27 failed: " ++ message ++
        (match status with
          | some s => " (status: " ++ toString s ++ ")"
          | none => "")
  | .Serialization format message => format ++ " serialization failed: " ++ message

/-- `impl Display for ApplicationError`, kinds.rs lines 193-210. -/
def ApplicationError.display : ApplicationError → String
  | .InvalidState state expected =>
      "Invalid state: got \x27" ++ state ++ "\x27, expected \x27" ++ expected ++ "\x27"
  | .Timeout operation timeout_ms =>
      "Operation \x27" ++ operation ++ "\x27 timed out after " ++ toString timeout_ms ++ "ms"
  | .Canceled operation reason =>
      "Operation \x27" ++ operation ++ "\x27 canceled: " ++ reason
  | .Internal message => "Internal error: " ++ message

/-- `impl Display for PluginError`, kinds.rs lines 212-229. -/
def PluginError.display : PluginError → String
  | .NotFound plugin_id => "Plugin not found: " ++ plugin_id
  | .LoadFailed plugin_id message =>
      "Failed to load plugin \x27" ++ plugin_id ++ "\x27: " ++ message
  | .InitFailed plugin_id message =>
      "Failed to initialize plugin \x27" ++ plugin_id ++ "\x27: " ++ message
  | .DependencyMissing plugin_id dependency =>
      "Plugin \x27" ++ plugin_id ++ "\x27 missing dependency: " ++ dependency

/-- `impl Display for AppError`, kinds.rs lines 126-135. -/
def AppError.display : AppError → String
  | .Domain e => "Domain error: " ++ e.display
  | .Infrastructure e => "Infrastructure error: " ++ e.display
  | .Application e => "Application error: " ++ e.display
  | .Plugin e => "Plugin error: " ++ e.display

/-- `AppError::is_not_found`, kinds.rs lines 235-237. -/
def AppError.is_not_found : AppError → Bool
  | .Domain (.NotFound ..) => true
  | _ => false

/-- `AppError::is_validation`, kinds.rs lines 240-242. -/
def AppError.is_validation : AppError → Bool
  | .Domain (.Validation ..) => true
  | _ => false

/-- `AppError::is_internal`, kinds.rs lines 260-262. -/
def AppError.is_internal : AppError → Bool
  | .Application (.Internal ..) => true
  | _ => false

/-- `AppError::code`, kinds.rs lines 265-292. -/
def AppError.code : AppError → String
  | .Domain (.NotFound ..) => "NOT_FOUND"
  | .Domain (.Validation ..) => "VALIDATION_ERROR"
  | .Domain (.BusinessRule ..) => "BUSINESS_RULE_VIOLATION"
  | .Domain (.Conflict ..) => "CONFLICT"
  | .Infrastructure (.Database ..) => "DATABASE_ERROR"
  | .Infrastructure (.FileSystem ..) => "FILE_SYSTEM_ERROR"
  | .Infrastructure (.Network ..) => "NETWORK_ERROR"
  | .Infrastructure (.Serialization ..) => "SERIALIZATION_ERROR"
  | .Application (.InvalidState ..) => "INVALID_STATE"
  | .Application (.Timeout ..) => "TIMEOUT"
  | .Application (.Canceled ..) => "CANCELED"
  | .Application (.Internal ..) => "INTERNAL_ERROR"
  | .Plugin (.NotFound ..) => "PLUGIN_NOT_FOUND"
  | .Plugin (.LoadFailed ..) => "PLUGIN_LOAD_FAILED"
  | .Plugin (.InitFailed ..) => "PLUGIN_INIT_FAILED"
  | .Plugin (.DependencyMissing ..) => "PLUGIN_DEPENDENCY_MISSING"

/-- `DomainError::not_found` constructor, kinds.rs lines 298-303. -/
def DomainError.not_found (entity id : String) : DomainError :=
  DomainError.NotFound entity id

/-- `AppError::not_found` constructor, kinds.rs lines 341-343. -/
def AppError.not_found (entity id : String) : AppError :=
  AppError.Domain (DomainError.not_found entity id)

/-- `LogLevel` enum, handler.rs lines 188-192. -/
inductive LogLevel where
  | Info
  | Warn
  | Error
deriving DecidableEq, Repr

/-- `ErrorHandler::get_log_level`, handler.rs lines 105-114 (the handler
configuration fields are not read by this method, so it is modelled as a
function of the error kind alone).  The final wildcard arm of the Rust
`match` covers `Domain(BusinessRule)` and `Domain(Conflict)`. -/
def ErrorHandler.get_log_level : AppError → LogLevel
  | .Domain (.NotFound ..) => .Warn
  | .Domain (.Validation ..) => .Warn
  | .Application _ => .Warn
  | .Infrastructure _ => .Error
  | .Plugin _ => .Error
  | _ => .Error

end Backend

/-- C6 counterexample: the claim says `handle` logs every
`Application::Internal` error at Error severity, but
`ErrorHandler::get_log_level` maps the whole `Application` family —
including `Internal` — to `LogLevel::Warn` (handler.rs line 109), so
`log_error` logs it via `log::warn!`, not `log::error!`. -/
theorem internal_error_logged_at_warn :
    Backend.ErrorHandler.get_log_level
        (Backend.AppError.Application (Backend.ApplicationError.Internal "boom"))
      = Backend.LogLevel.Warn ∧
    Backend.LogLevel.Warn ≠ Backend.LogLevel.Error := by
  exact ⟨rfl, by decide⟩

/-- C6 (amended): `get_log_level` maps Domain NotFound and Validation
errors to Warning, every Infrastructure and Plugin error to Error, and
every Application error — including `Application::Internal` — to Warning
(the remaining Domain variants, BusinessRule and Conflict, fall to the
wildcard arm and map to Error). -/
theorem severity_classification (e : Backend.AppError) :
    (∀ entity id, Backend.ErrorHandler.get_log_level
        (Backend.AppError.Domain (Backend.DomainError.NotFound entity id))
        = Backend.LogLevel.Warn) ∧
    (∀ field message value, Backend.ErrorHandler.get_log_level
        (Backend.AppError.Domain (Backend.DomainError.Validation field message value))
        = Backend.LogLevel.Warn) ∧
    (∀ a, Backend.ErrorHandler.get_log_level (Backend.AppError.Application a)
        = Backend.LogLevel.Warn) ∧
    (∀ i, Backend.ErrorHandler.get_log_level (Backend.AppError.Infrastructure i)
        = Backend.LogLevel.Error) ∧
    (∀ p, Backend.ErrorHandler.get_log_level (Backend.AppError.Plugin p)
        = Backend.LogLevel.Error) ∧
    (Backend.ErrorHandler.get_log_level e = Backend.LogLevel.Warn ∨
      Backend.ErrorHandler.get_log_level e = Backend.LogLevel.Error) := by
  refine ⟨fun _ _ => rfl, fun _ _ _ => rfl, fun a => rfl, fun i => rfl, fun p => rfl, ?_⟩
  cases e with
  | Domain d => cases d <;> simp [Backend.ErrorHandler.get_log_level]
  | Infrastructure i => right; rfl
  | Application a => left; rfl
  | Plugin p => right; rfl

/-- C9 counterexample: `AppError::not_found("User","123")` has
`code() == "NOT_FOUND"` and `is_not_found() == true`, but its `Display`
form is `"Domain error: User not found: 123"` (the `AppError` `Display`
impl prefixes the family tag, kinds.rs line 129), not the claimed
`"User not found: 123"`. -/
theorem not_found_display_prefixed :
    ¬ ((Backend.AppError.not_found "User" "123").code = "NOT_FOUND" ∧
        (Backend.AppError.not_found "User" "123").display = "User not found: 123" ∧
        (Backend.AppError.not_found "User" "123").is_not_found = true) := by
  decide

/-- C9 (amended): `not_found("User","123")` satisfies
`code() == "NOT_FOUND"` and `is_not_found() == true`; its `Display` form
is `"Domain error: User not found: 123"`, while the underlying
`DomainError`'s `Display` form is `"User not found: 123"`. -/
theorem not_found_scenario :
    (Backend.AppError.not_found "User" "123").code = "NOT_FOUND" ∧
    (Backend.AppError.not_found "User" "123").is_not_found = true ∧
    (Backend.AppError.not_found "User" "123").display
      = "Domain error: User not found: 123" ∧
    (Backend.DomainError.not_found "User" "123").display = "User not found: 123" := by
  decide

/-- Minimal JSON value model for `serde_json::Value` as used by
`ErrorValue::to_response`: strings, numbers, string-map objects and null
(null is included only to state that it is never emitted). -/
inductive Json where
  | str (s : String)
  | num (n : Nat)
  | obj (fields : List (String × Json))
  | null

/-- `ErrorValue` struct, error.rs lines 82-99.  `HashMap<String,String>`
context becomes an association list. -/
structure ErrorValue where
  code : ErrorCode
  message : String
  details : Option String
  field : Option String
  cause : Option String
  context : Option (List (String × String))

/-- Key lookup in the built JSON object (first match). -/
def jsonGet (key : String) : List (String × Json) → Option Json
  | [] => none
  | (k, v) :: rest => if k = key then some v else jsonGet key rest

/-- `ErrorValue::to_response`, error.rs lines 136-153: inserts `code` (as
the code's `Display` string) and `message` unconditionally, then
`details`, `field`, `cause`, `context` only when the corresponding
`Option` is `Some`. -/
def ErrorValue.to_response (v : ErrorValue) : List (String × Json) :=
  [("code", Json.str v.code.display), ("message", Json.str v.message)]
    ++ (match v.details with
        | some d => [("details", Json.str d)]
        | none => [])
    ++ (match v.field with
        | some f => [("field", Json.str f)]
        | none => [])
    ++ (match v.cause with
        | some c => [("cause", Json.str c)]
        | none => [])
    ++ (match v.context with
        | some ctx => [("context", Json.obj (ctx.map (fun kv => (kv.1, Json.str kv.2))))]
        | none => [])

/-- C8: `to_response` always emits `code` as the code's `Display` string
(never its numeric discriminant) and `message`; each of `details`,
`field`, `cause`, `context` is present exactly when the corresponding
optional field is set (and then carries that value); and no key is ever
bound to JSON null. -/
theorem to_response_shape (v : ErrorValue) :
    jsonGet "code" v.to_response = some (Json.str v.code.display) ∧
    jsonGet "code" v.to_response ≠ some (Json.num v.code.discr) ∧
    jsonGet "message" v.to_response = some (Json.str v.message) ∧
    jsonGet "details" v.to_response = v.details.map Json.str ∧
    jsonGet "field" v.to_response = v.field.map Json.str ∧
    jsonGet "cause" v.to_response = v.cause.map Json.str ∧
    jsonGet "context" v.to_response
      = v.context.map (fun ctx => Json.obj (ctx.map (fun kv => (kv.1, Json.str kv.2)))) ∧
    (∀ p ∈ v.to_response, p.2 ≠ Json.null) := by
  obtain ⟨code, message, details, field, cause, context⟩ := v
  cases details <;> cases field <;> cases cause <;> cases context <;>
    simp [ErrorValue.to_response, jsonGet]

/-- One atomic lock-guarded step of the `ErrorTracker` API.  `record`
(error_handler.rs lines 155-190) takes three separate locks in order:
the sequence lock (increment-and-read as one unit, lines 157-160), the
matching severity-counter lock (lines 163-174), and the history lock
(push plus eviction loop, lines 185-189).  `clear` (lines 209-215) takes
four separate locks in order: history, then the three counters.  Each
constructor below is exactly one such critical section; `tid` names the
calling thread of a `record` in flight. -/
inductive TrackerAction where
  | assignId (tid : Nat)
  | bumpCounter (tid : Nat)
  | pushEntry (tid : Nat)
  | clearQueue
  | clearErrorCount
  | clearWarningCount
  | clearCriticalCount
deriving DecidableEq, Repr

/-- The thread owning a `record` phase (`none` for `clear` phases). -/
def TrackerAction.owner : TrackerAction → Option Nat
  | .assignId t => some t
  | .bumpCounter t => some t
  | .pushEntry t => some t
  | _ => none

/-- Whether an action is a phase of `clear`. -/
def TrackerAction.isClear : TrackerAction → Bool
  | .clearQueue => true
  | .clearErrorCount => true
  | .clearWarningCount => true
  | .clearCriticalCount => true
  | _ => false

/-- Execute one atomic action on the shared tracker state paired with the
per-thread captured ids (thread `t`'s local `entry.id` value after its
`assignId` step).  `env t` is the entry thread `t` is recording. -/
def execAction (env : Nat → ErrorEntry) (s : ErrorTracker × (Nat → Nat)) :
    TrackerAction → ErrorTracker × (Nat → Nat)
  | .assignId t =>
      let seq := (s.1.sequence + 1) % U64_MOD
      ({ s.1 with sequence := seq }, fun x => if x = t then seq else s.2 x)
  | .bumpCounter t =>
      (match (env t).severity with
        | .Warning => { s.1 with warning_count := (s.1.warning_count + 1) % U64_MOD }
        | .Error => { s.1 with error_count := (s.1.error_count + 1) % U64_MOD }
        | .Critical => { s.1 with critical_count := (s.1.critical_count + 1) % U64_MOD }
        | .Info => s.1
        , s.2)
  | .pushEntry t =>
      ({ s.1 with errors := popWhileOverCapacity (s.1.errors ++ [{ env t with id := s.2 t }]) }
        , s.2)
  | .clearQueue => ({ s.1 with errors := [] }, s.2)
  | .clearErrorCount => ({ s.1 with error_count := 0 }, s.2)
  | .clearWarningCount => ({ s.1 with warning_count := 0 }, s.2)
  | .clearCriticalCount => ({ s.1 with critical_count := 0 }, s.2)

/-- Execute a whole interleaving. -/
def execActions (env : Nat → ErrorEntry) (s : ErrorTracker × (Nat → Nat))
    (acts : List TrackerAction) : ErrorTracker × (Nat → Nat) :=
  acts.foldl (execAction env) s

/-- The three phases of one `record` call by thread `t`, in program order. -/
def recordProgram (t : Nat) : List TrackerAction :=
  [.assignId t, .bumpCounter t, .pushEntry t]

/-- The four phases of one `clear` call, in program order
(error_handler.rs lines 210-213). -/
def clearProgram : List TrackerAction :=
  [.clearQueue, .clearErrorCount, .clearWarningCount, .clearCriticalCount]

/-- `acts` is an interleaving of one `record` call per thread in `tids`
with at most one `clear` call: each thread's actions occur exactly in
its program order, the `clear` phases (if present) occur exactly in
program order, and no other actions appear. -/
def ValidInterleaving (tids : List Nat) (acts : List TrackerAction) : Prop :=
  (∀ t ∈ tids, acts.filter (fun a => a.owner == some t) = recordProgram t) ∧
  (acts.filter (fun a => a.isClear) = clearProgram ∨
    acts.filter (fun a => a.isClear) = []) ∧
  (∀ a ∈ acts, a.isClear = true ∨ ∃ t ∈ tids, a.owner = some t)

/-- The ids handed out by the sequence lock, in the order the `assignId`
critical sections execute: the id each `record` call stamps on its entry. -/
def assignedIds (env : Nat → ErrorEntry) (s : ErrorTracker × (Nat → Nat)) :
    List TrackerAction → List Nat
  | [] => []
  | a :: rest =>
      match a with
      | .assignId _ => ((s.1.sequence + 1) % U64_MOD) :: assignedIds env (execAction env s a) rest
      | _ => assignedIds env (execAction env s a) rest

/-- Number of `assignId` actions in an interleaving. -/
def countAssignId (acts : List TrackerAction) : Nat :=
  acts.countP (fun a => match a with | .assignId _ => true | _ => false)

theorem execAction_sequence (env : Nat → ErrorEntry) (s : ErrorTracker × (Nat → Nat)) :
    ∀ a : TrackerAction,
      (execAction env s a).1.sequence
        = match a with
          | .assignId _ => (s.1.sequence + 1) % U64_MOD
          | _ => s.1.sequence := by
  intro a
  cases a with
  | assignId t => rfl
  | bumpCounter t =>
      simp only [execAction]
      cases (env t).severity <;> rfl
  | pushEntry t => rfl
  | clearQueue => rfl
  | clearErrorCount => rfl
  | clearWarningCount => rfl
  | clearCriticalCount => rfl

theorem assignedIds_bounds (acts : List TrackerAction) :
    ∀ (env : Nat → ErrorEntry) (s : ErrorTracker × (Nat → Nat)),
      s.1.sequence + countAssignId acts < U64_MOD →
      ∀ x ∈ assignedIds env s acts,
        s.1.sequence < x ∧ x ≤ s.1.sequence + countAssignId acts := by
  induction acts with
  | nil => intro env s _ x hx; simp [assignedIds] at hx
  | cons a rest ih =>
      intro env s hW x hx
      cases a with
      | assignId t =>
          have hcnt : countAssignId (TrackerAction.assignId t :: rest)
              = countAssignId rest + 1 := by
            unfold countAssignId
            simp [List.countP_cons]
          rw [hcnt] at hW
          have hseq1 : s.1.sequence + 1 < U64_MOD := by omega
          have hmod : (s.1.sequence + 1) % U64_MOD = s.1.sequence + 1 :=
            Nat.mod_eq_of_lt hseq1
          have hseq' : (execAction env s (.assignId t)).1.sequence = s.1.sequence + 1 := by
            rw [execAction_sequence]; exact hmod
          simp only [assignedIds, hmod] at hx
          rcases List.mem_cons.mp hx with hcase | hcase
          · subst hcase; omega
          · have hW' : (execAction env s (.assignId t)).1.sequence + countAssignId rest
                < U64_MOD := by rw [hseq']; omega
            have := ih env (execAction env s (.assignId t)) hW' x hcase
            rw [hseq'] at this
            omega
      | bumpCounter t =>
          have hcnt : countAssignId (TrackerAction.bumpCounter t :: rest)
              = countAssignId rest := by
            unfold countAssignId; simp [List.countP_cons]
          rw [hcnt] at hW
          have hseq' : (execAction env s (.bumpCounter t)).1.sequence = s.1.sequence := by
            rw [execAction_sequence]
          simp only [assignedIds] at hx
          have hW' : (execAction env s (.bumpCounter t)).1.sequence + countAssignId rest
              < U64_MOD := by rw [hseq']; omega
          have := ih env (execAction env s (.bumpCounter t)) hW' x hx
          rw [hseq'] at this
          omega
      | pushEntry t =>
          have hcnt : countAssignId (TrackerAction.pushEntry t :: rest)
              = countAssignId rest := by
            unfold countAssignId; simp [List.countP_cons]
          rw [hcnt] at hW
          have hseq' : (execAction env s (.pushEntry t)).1.sequence = s.1.sequence := by
            rw [execAction_sequence]
          simp only [assignedIds] at hx
          have hW' : (execAction env s (.pushEntry t)).1.sequence + countAssignId rest
              < U64_MOD := by rw [hseq']; omega
          have := ih env (execAction env s (.pushEntry t)) hW' x hx
          rw [hseq'] at this
          omega
      | clearQueue =>
          have hcnt : countAssignId (TrackerAction.clearQueue :: rest)
              = countAssignId rest := by
            unfold countAssignId; simp [List.countP_cons]
          rw [hcnt] at hW
          have hseq' : (execAction env s .clearQueue).1.sequence = s.1.sequence := by
            rw [execAction_sequence]
          simp only [assignedIds] at hx
          have hW' : (execAction env s .clearQueue).1.sequence + countAssignId rest
              < U64_MOD := by rw [hseq']; omega
          have := ih env (execAction env s .clearQueue) hW' x hx
          rw [hseq'] at this
          omega
      | clearErrorCount =>
          have hcnt : countAssignId (TrackerAction.clearErrorCount :: rest)
              = countAssignId rest := by
            unfold countAssignId; simp [List.countP_cons]
          rw [hcnt] at hW
          have hseq' : (execAction env s .clearErrorCount).1.sequence = s.1.sequence := by
            rw [execAction_sequence]
          simp only [assignedIds] at hx
          have hW' : (execAction env s .clearErrorCount).1.sequence + countAssignId rest
              < U64_MOD := by rw [hseq']; omega
          have := ih env (execAction env s .clearErrorCount) hW' x hx
          rw [hseq'] at this
          omega
      | clearWarningCount =>
          have hcnt : countAssignId (TrackerAction.clearWarningCount :: rest)
              = countAssignId rest := by
            unfold countAssignId; simp [List.countP_cons]
          rw [hcnt] at hW
          have hseq' : (execAction env s .clearWarningCount).1.sequence = s.1.sequence := by
            rw [execAction_sequence]
          simp only [assignedIds] at hx
          have hW' : (execAction env s .clearWarningCount).1.sequence + countAssignId rest
              < U64_MOD := by rw [hseq']; omega
          have := ih env (execAction env s .clearWarningCount) hW' x hx
          rw [hseq'] at this
          omega
      | clearCriticalCount =>
          have hcnt : countAssignId (TrackerAction.clearCriticalCount :: rest)
              = countAssignId rest := by
            unfold countAssignId; simp [List.countP_cons]
          rw [hcnt] at hW
          have hseq' : (execAction env s .clearCriticalCount).1.sequence = s.1.sequence := by
            rw [execAction_sequence]
          simp only [assignedIds] at hx
          have hW' : (execAction env s .clearCriticalCount).1.sequence + countAssignId rest
              < U64_MOD := by rw [hseq']; omega
          have := ih env (execAction env s .clearCriticalCount) hW' x hx
          rw [hseq'] at this
          omega

theorem assignedIds_pairwise_lt (acts : List TrackerAction) :
    ∀ (env : Nat → ErrorEntry) (s : ErrorTracker × (Nat → Nat)),
      s.1.sequence + countAssignId acts < U64_MOD →
      (assignedIds env s acts).Pairwise (· < ·) := by
  induction acts with
  | nil => intro env s _; simp [assignedIds]
  | cons a rest ih =>
      intro env s hW
      cases a with
      | assignId t =>
          have hcnt : countAssignId (TrackerAction.assignId t :: rest)
              = countAssignId rest + 1 := by
            unfold countAssignId; simp [List.countP_cons]
          rw [hcnt] at hW
          have hseq1 : s.1.sequence + 1 < U64_MOD := by omega
          have hmod : (s.1.sequence + 1) % U64_MOD = s.1.sequence + 1 :=
            Nat.mod_eq_of_lt hseq1
          have hseq' : (execAction env s (.assignId t)).1.sequence = s.1.sequence + 1 := by
            rw [execAction_sequence]; exact hmod
          have hW' : (execAction env s (.assignId t)).1.sequence + countAssignId rest
              < U64_MOD := by rw [hseq']; omega
          simp only [assignedIds, hmod]
          refine List.Pairwise.cons ?_ (ih env _ hW')
          intro y hy
          have hb := assignedIds_bounds rest env _ hW' y hy
          rw [hseq'] at hb
          omega
      | bumpCounter t =>
          have hcnt : countAssignId (TrackerAction.bumpCounter t :: rest)
              = countAssignId rest := by
            unfold countAssignId; simp [List.countP_cons]
          rw [hcnt] at hW
          have hseq2 : (execAction env s (.bumpCounter t)).1.sequence = s.1.sequence := by
            rw [execAction_sequence]
          simp only [assignedIds]
          exact ih env _ (by rw [hseq2]; omega)
      | pushEntry t =>
          have hcnt : countAssignId (TrackerAction.pushEntry t :: rest)
              = countAssignId rest := by
            unfold countAssignId; simp [List.countP_cons]
          rw [hcnt] at hW
          have hseq2 : (execAction env s (.pushEntry t)).1.sequence = s.1.sequence := by
            rw [execAction_sequence]
          simp only [assignedIds]
          exact ih env _ (by rw [hseq2]; omega)
      | clearQueue =>
          have hcnt : countAssignId (TrackerAction.clearQueue :: rest)
              = countAssignId rest := by
            unfold countAssignId; simp [List.countP_cons]
          rw [hcnt] at hW
          have hseq2 : (execAction env s (.clearQueue)).1.sequence = s.1.sequence := by
            rw [execAction_sequence]
          simp only [assignedIds]
          exact ih env _ (by rw [hseq2]; omega)
      | clearErrorCount =>
          have hcnt : countAssignId (TrackerAction.clearErrorCount :: rest)
              = countAssignId rest := by
            unfold countAssignId; simp [List.countP_cons]
          rw [hcnt] at hW
          have hseq2 : (execAction env s (.clearErrorCount)).1.sequence = s.1.sequence := by
            rw [execAction_sequence]
          simp only [assignedIds]
          exact ih env _ (by rw [hseq2]; omega)
      | clearWarningCount =>
          have hcnt : countAssignId (TrackerAction.clearWarningCount :: rest)
              = countAssignId rest := by
            unfold countAssignId; simp [List.countP_cons]
          rw [hcnt] at hW
          have hseq2 : (execAction env s (.clearWarningCount)).1.sequence = s.1.sequence := by
            rw [execAction_sequence]
          simp only [assignedIds]
          exact ih env _ (by rw [hseq2]; omega)
      | clearCriticalCount =>
          have hcnt : countAssignId (TrackerAction.clearCriticalCount :: rest)
              = countAssignId rest := by
            unfold countAssignId; simp [List.countP_cons]
          rw [hcnt] at hW
          have hseq2 : (execAction env s (.clearCriticalCount)).1.sequence = s.1.sequence := by
            rw [execAction_sequence]
          simp only [assignedIds]
          exact ih env _ (by rw [hseq2]; omega)

/-- C2: under any interleaving of concurrent `record` calls (the id
assignment — increment-and-read of the sequence under its lock — is one
atomic action), the ids stamped on the recorded entries, taken in the
order the calls pass the sequence lock, are strictly increasing, and no
two recorded entries share an id; provided the total number of `record`
calls does not overflow the `u64` sequence counter. -/
theorem monotonic_sequence_ids (tids : List Nat) (acts : List TrackerAction)
    (env : Nat → ErrorEntry) (s : ErrorTracker × (Nat → Nat))
    (_hvalid : ValidInterleaving tids acts)
    (hW : s.1.sequence + countAssignId acts < U64_MOD) :
    (assignedIds env s acts).Pairwise (· < ·) ∧ (assignedIds env s acts).Nodup :=
  have hpw := assignedIds_pairwise_lt acts env s hW
  ⟨hpw, hpw.imp Nat.ne_of_lt⟩

/-- A concrete interleaving of two concurrent `record` calls (threads 0
and 1), their phases interleaved. -/
def twoThreadTrace : List TrackerAction :=
  [.assignId 0, .assignId 1, .bumpCounter 0, .bumpCounter 1, .pushEntry 1, .pushEntry 0]

/-- Witness for `monotonic_sequence_ids` on `twoThreadTrace` from a fresh
tracker. -/
theorem monotonic_sequence_ids_witness :
    (ValidInterleaving [0, 1] twoThreadTrace ∧
      (ErrorTracker.new, fun _ : Nat => 0).1.sequence + countAssignId twoThreadTrace
        < U64_MOD) ∧
    ((assignedIds (fun _ => warnEntryW) (ErrorTracker.new, fun _ : Nat => 0)
        twoThreadTrace).Pairwise (· < ·) ∧
      (assignedIds (fun _ => warnEntryW) (ErrorTracker.new, fun _ : Nat => 0)
        twoThreadTrace).Nodup) :=
  have hvalid : ValidInterleaving [0, 1] twoThreadTrace :=
    ⟨by decide, Or.inr (by decide), by decide⟩
  ⟨⟨hvalid, by decide⟩,
    monotonic_sequence_ids [0, 1] twoThreadTrace (fun _ => warnEntryW)
      (ErrorTracker.new, fun _ : Nat => 0) hvalid (by decide)⟩

/-- A complete interleaving of one `record` of a Warning entry (thread 0)
with one `clear`: the record passes its id-assignment and counter-bump
phases, the whole `clear` runs, then the record's queue push lands. -/
def clearRecordTrace : List TrackerAction :=
  [.assignId 0, .bumpCounter 0, .clearQueue, .clearErrorCount, .clearWarningCount,
    .clearCriticalCount, .pushEntry 0]

/-- C5 counterexample: `clear` takes four separate locks (error_handler.rs
lines 210-213), so it is not atomic with respect to concurrent `record`
calls.  In the valid interleaving `clearRecordTrace`, after both the
`record` of a Warning entry and the `clear` have fully completed, the
history queue holds that Warning entry while all three severity counters
read 0 — an observer's `get_summary` sees a non-empty queue with zero
counters, the inconsistency the claim says no interleaving can produce. -/
theorem clear_not_atomic_counterexample :
    ValidInterleaving [0] clearRecordTrace ∧
    (execActions (fun _ => warnEntryW) (ErrorTracker.new, fun _ : Nat => 0)
        clearRecordTrace).1.get_summary
      = { total := 1, errors := 0, warnings := 0, critical := 0 } ∧
    (execActions (fun _ => warnEntryW) (ErrorTracker.new, fun _ : Nat => 0)
        clearRecordTrace).1.errors
      = [{ warnEntryW with id := 1 }] ∧
    ({ total := 1, errors := 0, warnings := 0, critical := 0 } : ErrorSummary).total ≠ 0 ∧
    ({ total := 1, errors := 0, warnings := 0, critical := 0 } : ErrorSummary).warnings = 0 :=
  ⟨⟨by decide, Or.inl (by decide), by decide⟩, by decide, by decide, by decide, by decide⟩

/-- C5 (amended): run sequentially — with no `record` call interleaved —
`clear()` empties the history queue and zeroes all three severity
counters, so `get_summary` immediately after reports all zeros.  But
`clear` is not atomic with respect to concurrent `record` calls: it
acquires the queue lock and the three counter locks one after another,
and a `record` interleaved between its phases can leave the queue
non-empty while every counter is zero. -/
theorem clear_zeroes_summary (t : ErrorTracker) :
    (t.clear).get_summary = { total := 0, errors := 0, warnings := 0, critical := 0 } ∧
    (t.clear).errors = [] := by
  exact ⟨rfl, rfl⟩
